import Mathlib

/-!
# Verification of the DSAAS platform guided model-creation workflow

Shallow embedding of the core of the `DSAASPlatform` repository:

* the Chat Proxy Client (`src/client/src/api/chat.ts`, `sendChatMessage`),
* the Chat Proxy Service (`src/server/api/chat.ts` and the variant in
  `src/unnamed/part_002`, `chatHandler`),
* the Conversation Engine and Optimization Selection Guard
  (`ChatbotPage` in `src/client/src/components/ClientDashboard.tsx`:
  `handleSendMessage`, `handleOptimizationChoice`, `parseCSV`),
* the Model Project Registry (`src/client/src/App.tsx`:
  `handleCreateModel`, `handleUpdateModel`).

Asynchronous effects (axios calls, `setTimeout` callbacks) are modelled by
passing the outcome of the effect as an explicit parameter; React `useState`
setters are modelled as explicit state passing.  JavaScript `Set` values are
modelled as duplicate-free insertion into lists, and the JavaScript truthy
`||` operator on strings (where the empty string is falsy) is modelled by
`jsOr`.
-/

/-- Message roles used by the chat API (`ChatMessage.role` in
`src/client/src/api/chat.ts`). -/
inductive Role where
  | system
  | user
  | assistant
deriving DecidableEq, Repr

/-- `ChatMessage` of `src/client/src/api/chat.ts`: one `{role, content}` pair
sent to the proxy. -/
structure APIChatMessage where
  role : Role
  content : String
deriving DecidableEq, Repr

/-- `ChatResponse` of `src/client/src/api/chat.ts`.  The optional fields model
the TypeScript optional fields `message?` and `error?`. -/
structure ChatResponse where
  success : Bool
  message : Option String
  error : Option String
deriving DecidableEq, Repr

/-- JavaScript `v || fallback` on strings: the empty string and
`undefined`/absent values are falsy and select the fallback. -/
def jsOr (v : Option String) (fallback : String) : String :=
  match v with
  | some s => if s = "" then fallback else s
  | none => fallback

/-- Outcome of the axios POST performed by `sendChatMessage`:
a 2xx response carrying an optional `data.message` field, a non-2xx response
carrying the HTTP status and an optional `data.error` field, or a network
failure (no response at all).  This is the only effect of the function; all
other code in it is pure. -/
inductive TransportOutcome where
  | success (respMessage : Option String)
  | httpError (status : Nat) (errorData : Option String)
  | networkError
deriving DecidableEq, Repr

/-- User-facing text for HTTP 400 in `sendChatMessage`. -/
def badRequestText : String :=
  "Invalid request to AI service. Please try rephrasing your message."

/-- User-facing text for HTTP 401 in `sendChatMessage`. -/
def unauthorizedText : String :=
  "Invalid API key or permission denied. Please contact support."

/-- User-facing text for HTTP 429 in `sendChatMessage`. -/
def rateLimitedText : String :=
  "Too many requests. Please wait a moment and try again."

/-- User-facing text for HTTP 500 in `sendChatMessage`. -/
def serverErrorText : String :=
  "LLM server error — try again shortly."

/-- User-facing text for a network failure in `sendChatMessage`. -/
def connectFailedText : String :=
  "Failed to connect to AI assistant. Please check your connection and try again."

/-- Generic fallback text used by the default branch of `sendChatMessage`. -/
def genericFailText : String :=
  "Oops! AI assistant failed to respond."

/-- `sendChatMessage` from `src/client/src/api/chat.ts`, as a function of the
message list and the transport outcome.  On a 2xx response it returns
`{success: true, message: response.data.message}`; on an error response it
switches on the HTTP status; on a network failure (no `error.response`) it
returns the connection-failure text.  The whole body is wrapped in
`try`/`catch` in the source, so the function never throws; totality of this
definition models that. -/
def sendChatMessage (messages : List APIChatMessage) (outcome : TransportOutcome) :
    ChatResponse :=
  match outcome with
  | .success respMessage => ⟨true, respMessage, none⟩
  | .httpError status errorData =>
      if status = 400 then ⟨false, none, some badRequestText⟩
      else if status = 401 then ⟨false, none, some unauthorizedText⟩
      else if status = 429 then ⟨false, none, some rateLimitedText⟩
      else if status = 500 then ⟨false, none, some serverErrorText⟩
      else ⟨false, none, some (jsOr errorData genericFailText)⟩
  | .networkError => ⟨false, none, some connectFailedText⟩

/-- The fallback of `jsOr` is only used when needed, so a non-empty fallback
guarantees a non-empty result. -/
theorem jsOr_ne_empty (v : Option String) (fallback : String)
    (hf : fallback ≠ "") : jsOr v fallback ≠ "" := by
  cases v with
  | none => simpa [jsOr] using hf
  | some s =>
      by_cases hs : s = "" <;> simp [jsOr, hs, hf]

/-- C5: the Chat Proxy Client maps every failed send to exactly one category,
determined by the HTTP status alone: 400 to `BadRequest`, 401 to
`Unauthorized`, 429 to `RateLimited`, 500 and network failure to
`UpstreamUnavailable`, and any other non-2xx status to `Unknown` (which
surfaces the provider-supplied message when present, else a generic one);
the user-facing texts for `RateLimited`, `Unauthorized` and the two
`UpstreamUnavailable` conditions are pairwise distinct. -/
theorem sendChatMessage_error_categories (msgs : List APIChatMessage)
    (d : Option String) (s : Nat) :
    sendChatMessage msgs (.httpError 400 d) = ⟨false, none, some badRequestText⟩
    ∧ sendChatMessage msgs (.httpError 401 d) = ⟨false, none, some unauthorizedText⟩
    ∧ sendChatMessage msgs (.httpError 429 d) = ⟨false, none, some rateLimitedText⟩
    ∧ sendChatMessage msgs (.httpError 500 d) = ⟨false, none, some serverErrorText⟩
    ∧ sendChatMessage msgs .networkError = ⟨false, none, some connectFailedText⟩
    ∧ (s ≠ 400 → s ≠ 401 → s ≠ 429 → s ≠ 500 →
        sendChatMessage msgs (.httpError s d) = ⟨false, none, some (jsOr d genericFailText)⟩)
    ∧ (rateLimitedText ≠ unauthorizedText ∧ rateLimitedText ≠ serverErrorText
        ∧ rateLimitedText ≠ connectFailedText ∧ unauthorizedText ≠ serverErrorText
        ∧ unauthorizedText ≠ connectFailedText ∧ serverErrorText ≠ connectFailedText) := by
  refine ⟨rfl, rfl, rfl, rfl, rfl, ?_, by decide⟩
  intro h400 h401 h429 h500
  simp [sendChatMessage, h400, h401, h429, h500]

/-- Witness for `sendChatMessage_error_categories` at a concrete status 503. -/
theorem sendChatMessage_error_categories_witness :
    sendChatMessage [] (.httpError 503 (some "busy")) =
      ⟨false, none, some (jsOr (some "busy") genericFailText)⟩ :=
  ((sendChatMessage_error_categories [] (some "busy") 503).2.2.2.2.2.1)
    (by decide) (by decide) (by decide) (by decide)

/-- C10: `sendChatMessage` is total over every transport outcome (the source
wraps the whole body in `try`/`catch`, so no exception propagates); when it
reports success the `message` field is exactly the server-supplied reply, and
when it reports failure the `error` field is a non-empty user-facing string. -/
theorem sendChatMessage_total (msgs : List APIChatMessage)
    (outcome : TransportOutcome) :
    ((sendChatMessage msgs outcome).success = true →
      ∃ m, outcome = .success m ∧ (sendChatMessage msgs outcome).message = m)
    ∧ ((sendChatMessage msgs outcome).success = false →
      ∃ e, (sendChatMessage msgs outcome).error = some e ∧ e ≠ "") := by
  cases outcome with
  | success m =>
      exact ⟨fun _ => ⟨m, rfl, rfl⟩, by simp [sendChatMessage]⟩
  | httpError s d =>
      have hs : (sendChatMessage msgs (.httpError s d)).success = false := by
        simp only [sendChatMessage]
        repeat' split
        all_goals rfl
      constructor
      · intro h
        rw [hs] at h
        exact absurd h (by simp)
      · intro _
        simp only [sendChatMessage]
        split
        · exact ⟨badRequestText, rfl, by decide⟩
        · split
          · exact ⟨unauthorizedText, rfl, by decide⟩
          · split
            · exact ⟨rateLimitedText, rfl, by decide⟩
            · split
              · exact ⟨serverErrorText, rfl, by decide⟩
              · exact ⟨jsOr d genericFailText, rfl, jsOr_ne_empty d _ (by decide)⟩
  | networkError =>
      exact ⟨by simp [sendChatMessage], fun _ => ⟨connectFailedText, rfl, by decide⟩⟩

/-- Witness for `sendChatMessage_total`: a failed outcome yields a non-empty
error string. -/
theorem sendChatMessage_total_witness :
    ∃ e, (sendChatMessage [] .networkError).error = some e ∧ e ≠ "" :=
  (sendChatMessage_total [] .networkError).2 (by decide)

/-! ## Chat Proxy Service (`chatHandler`)

Two versions of the handler exist in the repository:
`src/server/api/chat.ts` (namespace `ServerChat`) and the variant in
`src/unnamed/part_002` (namespace `ServerChatV2`, which additionally
validates the messages array and forwards upstream status/error detail).
Both are modelled as functions of the configured credential, the request
body's `messages` field, and the outcome of the axios call to the provider.
-/

/-- Outcome of the axios POST to the provider completions endpoint made by
the server handlers: either a 2xx response whose
`data.choices?.[0]?.message?.content` is the optional extracted content, or a
thrown axios error carrying the optional upstream HTTP status and the
optional provider error message (`error?.response?.data?.error?.message`). -/
inductive ProviderOutcome where
  | ok (content : Option String)
  | err (status : Option Nat) (providerMessage : Option String)
deriving DecidableEq, Repr

/-- The HTTP reply a handler produces: status code plus the JSON body fields
`message` / `error` it emits (each handler sets exactly one of the two). -/
structure HttpReply where
  status : Nat
  message : Option String
  error : Option String
deriving DecidableEq, Repr

/-- JavaScript `v || fallback` on numbers as used for
`error?.response?.status || 500` (absent and `0` are falsy). -/
def jsOrNat (v : Option Nat) (fallback : Nat) : Nat :=
  match v with
  | some n => if n = 0 then fallback else n
  | none => fallback

namespace ServerChat

/-- `chatHandler` from `src/server/api/chat.ts`.  If `GROQ_API_KEY` is absent
it replies 500 with a fixed error body; otherwise it forwards to the provider
and on success replies `{message: content || 'No response from AI'}`; on any
provider failure it replies 500 with a fixed error body.  `res.json` is
always called, so the handler never raises to its caller; totality models
that.  The request body's `messages` field is forwarded unvalidated (hence
unread here, since the provider outcome is a parameter). -/
def chatHandler (apiKey : Option String) (messages : Option (List APIChatMessage))
    (prov : ProviderOutcome) : HttpReply :=
  match apiKey with
  | none => ⟨500, none, some "Missing GROQ_API_KEY in environment"⟩
  | some _ =>
      match prov with
      | .ok content => ⟨200, some (jsOr content "No response from AI"), none⟩
      | .err _ _ => ⟨500, none, some "AI assistant failed to respond"⟩

end ServerChat

namespace ServerChatV2

/-- `chatHandler` from `src/unnamed/part_002`: like `ServerChat.chatHandler`
but it rejects an absent/non-array `messages` body with 400 (modelled by
`messages = none`), and on a provider failure forwards
`error?.response?.status || 500` and
`error?.response?.data?.error?.message || 'LLM server error — try again shortly.'`. -/
def chatHandler (apiKey : Option String) (messages : Option (List APIChatMessage))
    (prov : ProviderOutcome) : HttpReply :=
  match apiKey with
  | none => ⟨500, none, some "Missing GROQ_API_KEY in environment"⟩
  | some _ =>
      match messages with
      | none => ⟨400, none, some "Invalid messages format"⟩
      | some _ =>
          match prov with
          | .ok content => ⟨200, some (jsOr content "No response from AI model"), none⟩
          | .err st pm => ⟨jsOrNat st 500, none, some (jsOr pm serverErrorText)⟩

end ServerChatV2

/-- C8: on a successful provider call both handler versions reply with status
200 and only the extracted reply text; when the provider content is absent or
empty they substitute their fixed "no response" sentinel instead, and the
reply is still a normal 200 JSON body, never an exception (the handlers are
total and always produce a reply). -/
theorem chatHandler_success_reply (k : String) (msgs : List APIChatMessage)
    (content : Option String) :
    ServerChat.chatHandler (some k) (some msgs) (.ok content) =
      ⟨200, some (jsOr content "No response from AI"), none⟩
    ∧ ServerChatV2.chatHandler (some k) (some msgs) (.ok content) =
      ⟨200, some (jsOr content "No response from AI model"), none⟩
    ∧ (∀ c, content = some c → c ≠ "" →
        ServerChat.chatHandler (some k) (some msgs) (.ok content) = ⟨200, some c, none⟩
        ∧ ServerChatV2.chatHandler (some k) (some msgs) (.ok content) = ⟨200, some c, none⟩)
    ∧ (content = none ∨ content = some "" →
        ServerChat.chatHandler (some k) (some msgs) (.ok content) =
          ⟨200, some "No response from AI", none⟩
        ∧ ServerChatV2.chatHandler (some k) (some msgs) (.ok content) =
          ⟨200, some "No response from AI model", none⟩) := by
  refine ⟨rfl, rfl, ?_, ?_⟩
  · rintro c rfl hc
    simp [ServerChat.chatHandler, ServerChatV2.chatHandler, jsOr, hc]
  · rintro (rfl | rfl) <;>
      simp [ServerChat.chatHandler, ServerChatV2.chatHandler, jsOr]

/-- Witness for `chatHandler_success_reply`: an empty provider completion
yields the sentinel reply. -/
theorem chatHandler_success_reply_witness :
    ServerChat.chatHandler (some "k") (some []) (.ok (some "")) =
      ⟨200, some "No response from AI", none⟩
    ∧ ServerChatV2.chatHandler (some "k") (some []) (.ok (some "")) =
      ⟨200, some "No response from AI model", none⟩ :=
  (chatHandler_success_reply "k" [] (some "")).2.2.2 (Or.inr rfl)

/-! ## Composition of client and server for the missing-credential case -/

/-- How the client's axios call observes a server reply: a 2xx status is a
successful response whose `data.message` is the reply's message field; any
other status raises an axios error carrying the status and the reply's
`data.error` field. -/
def clientObserves (r : HttpReply) : TransportOutcome :=
  if 200 ≤ r.status ∧ r.status < 300 then .success r.message
  else .httpError r.status r.error

/-- C6 counterexample: there is no caller-distinguishable `ConfigurationError`
category.  With no credential configured the server replies HTTP 500, which
`sendChatMessage` maps to the very same `ChatResponse` as an upstream
provider-500 failure (the spec's retryable `UpstreamUnavailable`), so the
caller cannot distinguish the two outcomes.  Shown for both handler
versions at concrete inputs. -/
theorem configError_indistinguishable :
    sendChatMessage []
        (clientObserves (ServerChat.chatHandler none (some []) (.ok (some "hi"))))
      = sendChatMessage []
        (clientObserves (ServerChat.chatHandler (some "k") (some [])
          (.err (some 500) (some "upstream down"))))
    ∧ sendChatMessage []
        (clientObserves (ServerChatV2.chatHandler none (some []) (.ok (some "hi"))))
      = sendChatMessage []
        (clientObserves (ServerChatV2.chatHandler (some "k") (some [])
          (.err (some 500) (some "upstream down")))) := by
  exact ⟨rfl, rfl⟩

/-- C6 amended: when no credential is configured, a chat request fails at
request time — for every request body and every provider outcome both
handlers reply 500 with the body error `Missing GROQ_API_KEY in environment`
(the key is checked inside the handler, per request, not at startup) — and
that body text is distinct from the handlers' upstream-failure bodies; but
the client maps the reply like any 500 to the fixed upstream-unavailable
text, so at the `sendChatMessage` level the outcome is not a distinct
category and is not distinguishable from `UpstreamUnavailable`. -/
theorem missing_key_fails_at_request_time (body : Option (List APIChatMessage))
    (prov : ProviderOutcome) (msgs : List APIChatMessage) :
    ServerChat.chatHandler none body prov =
      ⟨500, none, some "Missing GROQ_API_KEY in environment"⟩
    ∧ ServerChatV2.chatHandler none body prov =
      ⟨500, none, some "Missing GROQ_API_KEY in environment"⟩
    ∧ ("Missing GROQ_API_KEY in environment" : String) ≠ "AI assistant failed to respond"
    ∧ ("Missing GROQ_API_KEY in environment" : String) ≠ serverErrorText
    ∧ sendChatMessage msgs (clientObserves (ServerChat.chatHandler none body prov)) =
      ⟨false, none, some serverErrorText⟩
    ∧ sendChatMessage msgs (clientObserves (ServerChatV2.chatHandler none body prov)) =
      ⟨false, none, some serverErrorText⟩ :=
  ⟨rfl, rfl, by decide, by decide, rfl, rfl⟩

/-! ## JavaScript string primitives

The source manipulates JavaScript strings with `trim`, single-character
`split`, `startsWith`, `includes` and `replace(/"/g, '')`.  These are
modelled structurally on the underlying character list so that every
definition evaluates by kernel reduction. -/

/-- JavaScript `String.prototype.trim`: remove leading and trailing
whitespace. -/
def jsTrim (s : String) : String :=
  ⟨((s.data.dropWhile Char.isWhitespace).reverse.dropWhile Char.isWhitespace).reverse⟩

/-- Split a character list at every occurrence of the separator character
(`'x,,y'.split(',') = ['x', '', 'y']`, `''.split(',') = ['']`). -/
def splitOnCharList (c : Char) : List Char → List (List Char)
  | [] => [[]]
  | x :: xs =>
      let r := splitOnCharList c xs
      if x = c then [] :: r
      else
        match r with
        | [] => [[x]]
        | y :: ys => (x :: y) :: ys

/-- JavaScript `String.prototype.split` with a one-character separator. -/
def jsSplit (c : Char) (s : String) : List String :=
  (splitOnCharList c s.data).map String.mk

/-- JavaScript `String.prototype.startsWith`. -/
def jsStartsWith (s pat : String) : Bool :=
  pat.data.isPrefixOf s.data

/-- JavaScript `String.prototype.includes`: the pattern occurs contiguously
somewhere in the string. -/
def jsIncludes (s pat : String) : Bool :=
  decide (pat.data <:+: s.data)

/-! ## Tabular Ingestor (`parseCSV`) -/

/-- The only parse failure `parseCSV` can raise: the explicit
`throw new Error('CSV file is empty')` when no non-blank line remains. -/
inductive ParseError where
  | EmptyFile
deriving DecidableEq, Repr

/-- The structured result of `parseCSV`: header cells and preview rows. -/
structure ParsedCSV where
  headers : List String
  rows : List (List String)
deriving DecidableEq, Repr

/-- Cell cleaning in `parseCSV`: `cell.trim().replace(/"/g, '')` — trim, then
remove every double-quote character, wherever it occurs (not only the
surrounding ones). -/
def cleanCell (cell : String) : String :=
  ⟨(jsTrim cell).data.filter (fun c => c ≠ '"')⟩

/-- `parseCSV` from `ChatbotPage` in
`src/client/src/components/ClientDashboard.tsx`: split the raw text on
newlines, drop whitespace-only lines, throw `EmptyFile` when none remain,
take the first remaining line split on commas as headers and
`lines.slice(1, 6)` (at most five further lines) as preview rows.  Rows are
never compared with the header list, so short or long rows cannot fail.
(The `CSVUploader` variant in `src/client/components/CSVUploader.tsx` is
identical except that its preview bound is ten.) -/
def parseCSV (csvText : String) : Except ParseError ParsedCSV :=
  let lines := (jsSplit '\n' csvText).filter (fun l => jsTrim l ≠ "")
  match lines with
  | [] => .error .EmptyFile
  | first :: rest =>
      .ok ⟨(jsSplit ',' first).map cleanCell,
           (rest.take 5).map (fun line => (jsSplit ',' line).map cleanCell)⟩

/-- Modelled from the spec sentence for comparison only (`strip surrounding
quote characters`): trim, then remove one leading and one trailing quote
character, leaving interior quotes in place. -/
def cleanCellSpec (cell : String) : String :=
  let t := jsTrim cell
  let t1 := if jsStartsWith t "\"" then ⟨t.data.drop 1⟩ else t
  if t1.data.getLast? = some '"' then ⟨t1.data.dropLast⟩ else t1

/-- `parseCSV` as the spec sentence reads, with surrounding-only quote
stripping; refinement comparison target for the counterexample. -/
def parseCSVSpec (csvText : String) : Except ParseError ParsedCSV :=
  let lines := (jsSplit '\n' csvText).filter (fun l => jsTrim l ≠ "")
  match lines with
  | [] => .error .EmptyFile
  | first :: rest =>
      .ok ⟨(jsSplit ',' first).map cleanCellSpec,
           (rest.take 5).map (fun line => (jsSplit ',' line).map cleanCellSpec)⟩

deriving instance DecidableEq for Except

/-- C7 counterexample: on the raw text `ab"cd,x` the code removes the
interior quote (`parseCSV` yields header `abcd`), while stripping only
surrounding quote characters as the claim states would keep it (`ab"cd`);
the two disagree. -/
theorem parseCSV_quote_counterexample :
    parseCSV "ab\"cd,x" = .ok ⟨["abcd", "x"], []⟩
    ∧ parseCSVSpec "ab\"cd,x" = .ok ⟨["ab\"cd", "x"], []⟩
    ∧ parseCSV "ab\"cd,x" ≠ parseCSVSpec "ab\"cd,x" := by
  refine ⟨by decide, by decide, by decide⟩

/-- C7 amended: `parseCSV` splits on newlines, drops whitespace-only lines,
fails with `EmptyFile` exactly when no non-blank line remains, and otherwise
returns headers equal to the first non-blank line split on commas with each
cell trimmed and stripped of **all** its quote characters, plus at most five
of the remaining lines, cleaned the same way, as preview rows; rows shorter
or longer than the header list never cause a failure (failure occurs only in
the all-blank case). -/
theorem parseCSV_characterization (csvText : String) :
    (parseCSV csvText = .error .EmptyFile ↔
      ∀ l ∈ jsSplit '\n' csvText, jsTrim l = "")
    ∧ (∀ first rest,
        ((jsSplit '\n' csvText).filter (fun l => jsTrim l ≠ "")) = first :: rest →
        parseCSV csvText =
          .ok ⟨(jsSplit ',' first).map cleanCell,
               (rest.take 5).map (fun line => (jsSplit ',' line).map cleanCell)⟩)
    ∧ (∀ p, parseCSV csvText = .ok p → p.rows.length ≤ 5) := by
  refine ⟨?_, ?_, ?_⟩
  · constructor
    · intro h
      by_contra hexists
      push_neg at hexists
      obtain ⟨l, hl, hne⟩ := hexists
      have hmem : l ∈ (jsSplit '\n' csvText).filter (fun l => jsTrim l ≠ "") := by
        simp only [List.mem_filter, decide_eq_true_eq]
        exact ⟨hl, hne⟩
      rcases hfil : (jsSplit '\n' csvText).filter (fun l => jsTrim l ≠ "") with _ | ⟨first, rest⟩
      · rw [hfil] at hmem
        exact absurd hmem (List.not_mem_nil l)
      · rw [parseCSV, hfil] at h
        exact absurd h (by simp)
    · intro h
      have hfil : (jsSplit '\n' csvText).filter (fun l => jsTrim l ≠ "") = [] := by
        rw [List.filter_eq_nil_iff]
        intro a ha
        simp only [decide_eq_true_eq, Decidable.not_not]
        exact h a ha
      rw [parseCSV, hfil]
  · intro first rest hfil
    rw [parseCSV, hfil]
  · intro p hp
    rcases hfil : (jsSplit '\n' csvText).filter (fun l => jsTrim l ≠ "") with _ | ⟨first, rest⟩
    · rw [parseCSV, hfil] at hp
      exact absurd hp (by simp)
    · rw [parseCSV, hfil] at hp
      have hrows : p.rows = (rest.take 5).map (fun line => (jsSplit ',' line).map cleanCell) := by
        cases hp
        rfl
      rw [hrows, List.length_map]
      exact rest.length_take_le 5

/-- Witness for `parseCSV_characterization` at a concrete two-line file. -/
theorem parseCSV_characterization_witness :
    parseCSV "a,b\n1,2,3" = .ok ⟨["a", "b"], [["1", "2", "3"]]⟩ := by
  have h := (parseCSV_characterization "a,b\n1,2,3").2.1 "a,b" ["1,2,3"] (by decide)
  rw [h]
  decide

/-! ## Data model shared by the Conversation Engine and the Registry -/

/-- `CSVData` of `ChatbotPage`: the dataset held for the session. -/
structure CSVData where
  headers : List String
  rows : List (List String)
  fileName : String
deriving DecidableEq, Repr

/-- The closed optimization-type set
(`'inventory' | 'price' | 'product'`). -/
inductive OptimizationType where
  | inventory
  | price
  | product
deriving DecidableEq, Repr

/-- `ModelProject.status` (`'in-progress' | 'completed'`). -/
inductive ModelStatus where
  | inProgress
  | completed
deriving DecidableEq, Repr

/-- `ModelProject` of `ModelsPage` / `App.tsx`. -/
structure ModelProject where
  id : String
  name : String
  type : OptimizationType
  status : ModelStatus
  createdAt : String
  csvFileName : String
  hasResults : Bool
deriving DecidableEq, Repr

/-! ## Conversation Engine (`ChatbotPage.handleSendMessage`) -/

/-- Roles of the `ChatbotPage` chat log (`'bot' | 'user'`). -/
inductive ChatRole where
  | bot
  | user
deriving DecidableEq, Repr

/-- One entry of the `ChatbotPage` message log.  The source also stores an
`id` (from `Date.now()`) and a `timestamp`; both are display metadata never
read by the logic modelled here and are omitted. -/
structure ChatLogMessage where
  type : ChatRole
  content : String
deriving DecidableEq, Repr

/-- JavaScript `Array.prototype.join(', ')` as used for
`csvData.headers.join(', ')`. -/
def joinCommaSpace : List String → String
  | [] => ""
  | [x] => x
  | x :: y :: rest => x ++ ", " ++ joinCommaSpace (y :: rest)

/-- First part of the schema-aware system prompt built by
`handleSendMessage`. -/
def promptIntro : String :=
  "You are a helpful AI assistant that helps clients understand what can be done with their uploaded business data. The user has uploaded a CSV file named \""

/-- Middle part of the schema-aware system prompt, between the file name and
the joined column names. -/
def promptColumns : String := "\" with columns: "

/-- Final part of the schema-aware system prompt. -/
def promptOutro : String :=
  ". Help them understand how AI can optimize their business using this data."

/-- The generic system prompt used when no dataset has been uploaded. -/
def genericPrompt : String :=
  "You are a helpful AI assistant that helps clients understand what can be done with their uploaded business data. Guide them to upload their data first, then suggest AI optimizations."

/-- The `systemPrompt` synthesized on every send: schema-aware when a dataset
is present (file name and `headers.join(', ')` spliced in verbatim), generic
otherwise. -/
def systemPrompt : Option CSVData → String
  | some d =>
      promptIntro ++ d.fileName ++ promptColumns
        ++ joinCommaSpace d.headers ++ promptOutro
  | none => genericPrompt

/-- Marker prefix of upload-notice log entries
(`📁 Uploaded: ${file.name}`). -/
def uploadedMarker : String := "📁 Uploaded:"

/-- Substring by which `handleSendMessage` recognizes the post-upload
analysis announcement. -/
def analyzedMarker : String := "Great! I\x27ve analyzed your data"

/-- The full post-upload analysis announcement appended by `handleFile`. -/
def analyzedText : String :=
  "Great! I\x27ve analyzed your data. Based on what I see, here are three AI optimizations I can help you with. Which one interests you most?"

/-- The initial scripted welcome message, index 0 of every session's log. -/
def welcomeText : String :=
  "👋 Welcome! I\x27m your AI assistant. To get started, please upload your business data (CSV format) and I\x27ll help you choose the best AI optimization for your needs."

/-- Fallback bot text of `handleSendMessage` when the proxy result carries no
usable reply or error text. -/
def genericRetryText : String :=
  "Oops! AI assistant failed to respond. Try again in a few seconds."

/-- The filter of `handleSendMessage`: keep a log entry for the outbound
context unless it is an upload notice, contains the analysis-announcement
text, or is whitespace-only. -/
def keptInContext (m : ChatLogMessage) : Bool :=
  !(jsStartsWith m.content uploadedMarker)
    && !(jsIncludes m.content analyzedMarker)
    && !((jsTrim m.content).data.isEmpty)

/-- Conversion of a log entry to the API format
(`role: msg.type === 'bot' ? 'assistant' : 'user'`). -/
def toAPIMessage (m : ChatLogMessage) : APIChatMessage :=
  ⟨if m.type = .bot then .assistant else .user, m.content⟩

/-- The `apiMessages` list `handleSendMessage` sends to the proxy: the
synthesized system message, then `messages.slice(1)` (everything after the
initial welcome) filtered by `keptInContext` and converted, then the new user
message. -/
def apiMessages (csvData : Option CSVData) (log : List ChatLogMessage)
    (userMessage : String) : List APIChatMessage :=
  ⟨.system, systemPrompt csvData⟩ ::
    ((log.drop 1).filter keptInContext).map toAPIMessage
    ++ [⟨.user, userMessage⟩]

/-- Modelled from the claim's words for comparison only: the context as C4
states it — all prior non-system messages (the log holds only `bot`/`user`
entries, so all of them) excluding **only** upload notices and the analysis
announcement. -/
def apiMessagesClaim (csvData : Option CSVData) (log : List ChatLogMessage)
    (userMessage : String) : List APIChatMessage :=
  ⟨.system, systemPrompt csvData⟩ ::
    (log.filter (fun m =>
      !(jsStartsWith m.content uploadedMarker)
        && !(jsIncludes m.content analyzedMarker))).map toAPIMessage
    ++ [⟨.user, userMessage⟩]

/-- The bot text appended after a round-trip: the reply when the response is
a success with truthy (non-empty) `message`, else `response.error ||
'Oops! …'`. -/
def botReply (response : ChatResponse) : String :=
  match response.message with
  | some m => if response.success && !(m == "") then m
              else jsOr response.error genericRetryText
  | none => jsOr response.error genericRetryText

/-- The `ChatbotPage` component state touched by the operations modelled
here. -/
structure ChatbotState where
  messages : List ChatLogMessage
  csvData : Option CSVData
  isTyping : Bool
  inputMessage : String
  processingTypes : List OptimizationType
deriving DecidableEq, Repr

/-- `handleSendMessage` as a state transition, with the transport outcome of
the proxy round-trip passed explicitly.  Guard: return unchanged when the
trimmed input is empty or a round-trip is pending (`isTyping`).  Otherwise
append the user message, perform the round-trip on the context built from
the pre-send log, append the bot reply (`sendChatMessage` is total, so the
`catch` branch is unreachable), and clear `isTyping` (the `finally`).  -/
def handleSendMessage (st : ChatbotState) (outcome : TransportOutcome) :
    ChatbotState :=
  if (jsTrim st.inputMessage == "") || st.isTyping then st
  else
    let userMessage := jsTrim st.inputMessage
    let response :=
      sendChatMessage (apiMessages st.csvData st.messages userMessage) outcome
    { st with
      inputMessage := ""
      messages := st.messages
        ++ [⟨.user, userMessage⟩, ⟨.bot, botReply response⟩]
      isTyping := false }

/-- Every non-success transport outcome yields a failure response whose error
text is non-empty (shared shape lemma for the engine proofs). -/
theorem sendChatMessage_failure_shape (msgs : List APIChatMessage)
    (o : TransportOutcome) (h : ∀ m, o ≠ .success m) :
    ∃ e, sendChatMessage msgs o = ⟨false, none, some e⟩ ∧ e ≠ "" := by
  cases o with
  | success m => exact absurd rfl (h m)
  | httpError s d =>
      simp only [sendChatMessage]
      split
      · exact ⟨badRequestText, rfl, by decide⟩
      · split
        · exact ⟨unauthorizedText, rfl, by decide⟩
        · split
          · exact ⟨rateLimitedText, rfl, by decide⟩
          · split
            · exact ⟨serverErrorText, rfl, by decide⟩
            · exact ⟨jsOr d genericFailText, rfl, jsOr_ne_empty d _ (by decide)⟩
  | networkError => exact ⟨connectFailedText, rfl, by decide⟩

/-- `botReply` surfaces the error text of a failure response verbatim. -/
theorem botReply_of_failure (e : String) (he : e ≠ "") :
    botReply ⟨false, none, some e⟩ = e := by
  simp [botReply, jsOr, he]

/-- `botReply` surfaces a non-empty success reply verbatim. -/
theorem botReply_of_success (m : String) (hm : m ≠ "") :
    botReply ⟨true, some m, none⟩ = m := by
  simp [botReply, hm]

/-- C3: `handleSendMessage` is a no-op unless the engine is idle
(`isTyping = false`) and the trimmed input is non-empty — in particular a
rejected call leaves the message log untouched; every accepted call appends
exactly the new user message and one bot message and ends with the engine
idle again (never stuck awaiting a reply), and the appended bot content is
the reply text on a successful round-trip and the non-empty mapped error
text on any failed one. -/
theorem handleSendMessage_protocol (st : ChatbotState) (outcome : TransportOutcome) :
    ((jsTrim st.inputMessage = "" ∨ st.isTyping = true) →
      handleSendMessage st outcome = st)
    ∧ (jsTrim st.inputMessage ≠ "" → st.isTyping = false →
        (handleSendMessage st outcome).messages =
          st.messages ++
            [⟨.user, jsTrim st.inputMessage⟩,
             ⟨.bot, botReply (sendChatMessage
                (apiMessages st.csvData st.messages (jsTrim st.inputMessage))
                outcome)⟩]
        ∧ (handleSendMessage st outcome).isTyping = false
        ∧ (∀ m, outcome = .success (some m) → m ≠ "" →
            botReply (sendChatMessage
              (apiMessages st.csvData st.messages (jsTrim st.inputMessage))
              outcome) = m)
        ∧ ((∀ m, outcome ≠ .success m) →
            ∃ e, sendChatMessage
                  (apiMessages st.csvData st.messages (jsTrim st.inputMessage))
                  outcome = ⟨false, none, some e⟩
              ∧ e ≠ ""
              ∧ botReply (sendChatMessage
                  (apiMessages st.csvData st.messages (jsTrim st.inputMessage))
                  outcome) = e)) := by
  constructor
  · rintro (h | h) <;> simp [handleSendMessage, h]
  · intro hne htyping
    have hguard : ((jsTrim st.inputMessage == "") || st.isTyping) = false := by
      simp [hne, htyping]
    refine ⟨?_, ?_, ?_, ?_⟩
    · simp [handleSendMessage, hguard]
    · simp [handleSendMessage, hguard]
    · rintro m rfl hm
      exact botReply_of_success m hm
    · intro hno
      obtain ⟨e, he, hene⟩ := sendChatMessage_failure_shape _ outcome hno
      exact ⟨e, he, hene, by rw [he]; exact botReply_of_failure e hene⟩

/-- Witness for `handleSendMessage_protocol`: an accepted call from the
initial state on a successful round-trip. -/
theorem handleSendMessage_protocol_witness :
    (handleSendMessage ⟨[⟨.bot, welcomeText⟩], none, false, "hello", []⟩
        (.success (some "hi there"))).messages =
      [⟨.bot, welcomeText⟩] ++
        [⟨.user, jsTrim "hello"⟩,
         ⟨.bot, botReply (sendChatMessage
            (apiMessages none [⟨.bot, welcomeText⟩] (jsTrim "hello"))
            (.success (some "hi there")))⟩]
    ∧ (handleSendMessage ⟨[⟨.bot, welcomeText⟩], none, false, "hello", []⟩
        (.success (some "hi there"))).isTyping = false := by
  have h := (handleSendMessage_protocol
    ⟨[⟨.bot, welcomeText⟩], none, false, "hello", []⟩
    (.success (some "hi there"))).2 (by decide) rfl
  exact ⟨h.1, h.2.1⟩

/-- An infix of a middle segment is an infix of the whole concatenation. -/
theorem infix_append_three (l m pre post : List Char) (hm : l <:+: m) :
    l <:+: pre ++ m ++ post := by
  obtain ⟨s, t, rfl⟩ := hm
  exact ⟨pre ++ s, t ++ post, by simp [List.append_assoc]⟩

/-- Each member of a string list occurs verbatim in its comma-space join. -/
theorem mem_joinCommaSpace_infix (h : String) (l : List String) (hm : h ∈ l) :
    h.data <:+: (joinCommaSpace l).data := by
  induction l with
  | nil => exact absurd hm (List.not_mem_nil h)
  | cons x rest ih =>
      rcases List.mem_cons.mp hm with rfl | hmem
      · cases rest with
        | nil => exact List.infix_refl _
        | cons y t =>
            rw [show joinCommaSpace (h :: y :: t)
                  = h ++ ", " ++ joinCommaSpace (y :: t) from rfl,
                String.data_append, String.data_append]
            exact ⟨[], (", " : String).data ++ (joinCommaSpace (y :: t)).data,
              by simp [List.append_assoc]⟩
      · cases rest with
        | nil => exact absurd hmem (List.not_mem_nil h)
        | cons y t =>
            rw [show joinCommaSpace (x :: y :: t)
                  = x ++ ", " ++ joinCommaSpace (y :: t) from rfl,
                String.data_append, String.data_append]
            exact (ih hmem).trans (List.suffix_append _ _).isInfix

/-- Every header name occurs verbatim in the schema-aware system prompt. -/
theorem header_infix_systemPrompt (d : CSVData) (h : String)
    (hm : h ∈ d.headers) : h.data <:+: (systemPrompt (some d)).data := by
  have hJ := mem_joinCommaSpace_infix h d.headers hm
  simp only [systemPrompt, String.data_append]
  exact infix_append_three _ _ _ _ hJ

set_option maxRecDepth 4096 in
/-- C4 counterexample: the outbound context is **not** every prior non-system
message minus upload notices and the analysis announcement — the initial
scripted welcome message (a bot message that is neither) is also dropped, by
`messages.slice(1)`.  From the initial log, the code sends no prior turn at
all, while the claim's reading would include the welcome message. -/
theorem apiMessages_welcome_counterexample :
    apiMessages none [⟨.bot, welcomeText⟩] "hi"
      = [⟨.system, genericPrompt⟩, ⟨.user, "hi"⟩]
    ∧ apiMessagesClaim none [⟨.bot, welcomeText⟩] "hi"
      = [⟨.system, genericPrompt⟩, ⟨.assistant, welcomeText⟩, ⟨.user, "hi"⟩]
    ∧ apiMessages none [⟨.bot, welcomeText⟩] "hi"
      ≠ apiMessagesClaim none [⟨.bot, welcomeText⟩] "hi" := by
  refine ⟨by decide, by decide, by decide⟩

/-- C4 amended: the context sent to the proxy is exactly one synthesized
system message first (containing every dataset header name verbatim when a
dataset is present, the generic instruction otherwise), then the prior
non-system messages in chronological order excluding the initial scripted
welcome message (`messages.slice(1)`), upload notices, the analysis
announcement and whitespace-only entries, then the new user message last. -/
theorem apiMessages_shape (csvData : Option CSVData) (log : List ChatLogMessage)
    (userMessage : String) (d : CSVData) :
    (apiMessages csvData log userMessage).head? = some ⟨.system, systemPrompt csvData⟩
    ∧ (apiMessages csvData log userMessage).getLast? = some ⟨.user, userMessage⟩
    ∧ apiMessages csvData log userMessage =
        ⟨.system, systemPrompt csvData⟩ ::
          ((log.drop 1).filter keptInContext).map toAPIMessage
          ++ [⟨.user, userMessage⟩]
    ∧ (csvData = some d → ∀ h ∈ d.headers,
        h.data <:+: (systemPrompt csvData).data) := by
  refine ⟨rfl, ?_, rfl, ?_⟩
  · show (⟨Role.system, systemPrompt csvData⟩ ::
      (((log.drop 1).filter keptInContext).map toAPIMessage
        ++ [⟨Role.user, userMessage⟩])).getLast? = some ⟨Role.user, userMessage⟩
    rw [← List.cons_append, List.getLast?_append_of_ne_nil, List.getLast?_singleton]
    simp
  · rintro rfl h hm
    exact header_infix_systemPrompt d h hm

/-- Witness for `apiMessages_shape` with the dataset of the spec's scenario:
headers `date`, `sku`, `qty`. -/
theorem apiMessages_shape_witness :
    ∀ h ∈ (["date", "sku", "qty"] : List String),
      h.data <:+: (systemPrompt (some ⟨["date", "sku", "qty"], [], "d.csv"⟩)).data :=
  (apiMessages_shape (some ⟨["date", "sku", "qty"], [], "d.csv"⟩)
    [⟨.bot, welcomeText⟩] "price" ⟨["date", "sku", "qty"], [], "d.csv"⟩).2.2.2 rfl

/-! ## Model Project Registry (`App.tsx`) -/

/-- The `modelNames` lookup of `handleCreateModel`. -/
def modelName : OptimizationType → String
  | .inventory => "Inventory Optimization"
  | .price => "Price Recommendation"
  | .product => "Product Recommendation"

/-- The `{ success, message }` record returned by `onCreateModel` /
`handleCreateModel`. -/
structure CreateResult where
  success : Bool
  message : Option String
deriving DecidableEq, Repr

/-- The `App` component state touched by the registry operations.
`createdModelTypes` is a JavaScript `Set`, modelled as a duplicate-free list
through `List.insert`; only membership is ever queried. -/
structure AppState where
  models : List ModelProject
  createdModelTypes : List OptimizationType
  chatbotData : Option CSVData
deriving DecidableEq, Repr

/-- The duplicate-creation refusal message of `handleCreateModel`. -/
def alreadyInProgressMessage : String :=
  "This model is already in progress and will appear in the Models section."

/-- `handleCreateModel` from `src/client/src/App.tsx`, with the fresh id
(`Date.now().toString()`) passed explicitly: refuse when the type is already
in `createdModelTypes`; otherwise prepend a new in-progress project with no
results, record the type as created and stash the dataset. -/
def handleCreateModel (app : AppState) (t : OptimizationType) (csvData : CSVData)
    (newId : String) : CreateResult × AppState :=
  if t ∈ app.createdModelTypes then
    (⟨false, some alreadyInProgressMessage⟩, app)
  else
    let newModel : ModelProject :=
      ⟨newId, modelName t, t, .inProgress, "Just now", csvData.fileName, false⟩
    (⟨true, none⟩,
      { models := newModel :: app.models
        createdModelTypes := app.createdModelTypes.insert t
        chatbotData := some csvData })

/-- `Partial<ModelProject>`: each field optionally overridden. -/
structure ModelUpdates where
  id : Option String := none
  name : Option String := none
  type : Option OptimizationType := none
  status : Option ModelStatus := none
  createdAt : Option String := none
  csvFileName : Option String := none
  hasResults : Option Bool := none
deriving DecidableEq, Repr

/-- The JavaScript spread `{ ...model, ...updates }`. -/
def applyUpdates (m : ModelProject) (u : ModelUpdates) : ModelProject :=
  ⟨u.id.getD m.id, u.name.getD m.name, u.type.getD m.type, u.status.getD m.status,
    u.createdAt.getD m.createdAt, u.csvFileName.getD m.csvFileName,
    u.hasResults.getD m.hasResults⟩

/-- `handleUpdateModel` from `src/client/src/App.tsx`: map over the project
list, replacing the project whose id matches.  The source function returns
`void` and produces no other observable effect, so the updated list is the
entire caller-visible outcome. -/
def handleUpdateModel (models : List ModelProject) (modelId : String)
    (updates : ModelUpdates) : List ModelProject :=
  models.map (fun model =>
    if model.id = modelId then applyUpdates model updates else model)

/-- An empty `Partial<ModelProject>`: no field overridden. -/
def noUpdates : ModelUpdates := {}

/-- A concrete registry entry used by the witnesses and counterexamples. -/
def sampleModel : ModelProject :=
  ⟨"1", "Inventory Optimization", .inventory, .inProgress, "Just now",
    "data.csv", false⟩

/-- C9 counterexample: `handleUpdateModel` signals nothing to its caller.
Calling it with an id that is present and an empty update yields an outcome
identical in every observable respect (the function returns `void`; the new
list is its entire effect) to calling it with an absent id, so no `NotFound`
signal distinguishing the absent-id case exists.  The absent-id call is
indeed a no-op. -/
theorem handleUpdateModel_no_signal :
    handleUpdateModel [sampleModel] "1" noUpdates
      = handleUpdateModel [sampleModel] "404" noUpdates
    ∧ sampleModel.id = "1"
    ∧ sampleModel.id ≠ "404"
    ∧ handleUpdateModel [sampleModel] "404" noUpdates = [sampleModel] := by
  refine ⟨by decide, rfl, by decide, by decide⟩

/-- C9 amended: calling `handleUpdateModel` with an absent id is a no-op on
the project list — but no `NotFound` (nor any other) signal reaches the
caller, the refused call being observationally identical to a trivial
successful one; with a present id exactly the given fields of each matching
project change and every other project is unchanged (the list length never
changes). -/
theorem handleUpdateModel_spec (models : List ModelProject) (modelId : String)
    (u : ModelUpdates) :
    ((∀ m ∈ models, m.id ≠ modelId) →
      handleUpdateModel models modelId u = models)
    ∧ (handleUpdateModel models modelId u).length = models.length
    ∧ (∀ (i : Nat) m, models[i]? = some m → m.id ≠ modelId →
        (handleUpdateModel models modelId u)[i]? = some m)
    ∧ (∀ (i : Nat) m, models[i]? = some m → m.id = modelId →
        (handleUpdateModel models modelId u)[i]? = some (applyUpdates m u)) := by
  refine ⟨?_, ?_, ?_, ?_⟩
  · intro h
    calc handleUpdateModel models modelId u
        = models.map id := List.map_congr_left (by intro m hm; simp [h m hm])
      _ = models := List.map_id models
  · simp [handleUpdateModel]
  · intro i m hm hne
    simp [handleUpdateModel, List.getElem?_map, hm, hne]
  · intro i m hm heq
    simp [handleUpdateModel, List.getElem?_map, hm, heq]

/-- Witness for `handleUpdateModel_spec`: the absent-id no-op at a concrete
one-project registry. -/
theorem handleUpdateModel_spec_witness :
    handleUpdateModel [sampleModel] "zzz" noUpdates = [sampleModel] :=
  (handleUpdateModel_spec [sampleModel] "zzz" noUpdates).1 (by decide)

/-! ## Optimization Selection Guard (`ChatbotPage.handleOptimizationChoice`)

`handleOptimizationChoice` performs its guard check and marks the type as
processing synchronously; the creation itself (the call to `onCreateModel`,
i.e. `handleCreateModel`, followed by removal from `processingTypes`) runs in
a scheduled callback.  `chooseOptimizationStart` is the synchronous part,
`chooseOptimizationFinish` the callback (which always runs; the dataset it
uses is the one captured at click time and is passed explicitly). -/

/-- The tri-state outcome of the guard check (§4.3 `attemptCreate`). -/
inductive GuardDecision where
  | Allowed
  | AlreadyCreated
  | AlreadyProcessing
deriving DecidableEq, Repr

/-- The guard check at the top of `handleOptimizationChoice`:
`createdModelTypes.has(type) || processingTypes.has(type)`, evaluated left to
right, decomposed into the spec's tri-state decision. -/
def guardDecision (created processing : List OptimizationType)
    (t : OptimizationType) : GuardDecision :=
  if t ∈ created then .AlreadyCreated
  else if t ∈ processing then .AlreadyProcessing
  else .Allowed

/-- The combined per-session state: the `App` state and the `ChatbotPage`
state. -/
structure SessionState where
  app : AppState
  page : ChatbotState
deriving DecidableEq, Repr

/-- Blocked-choice bot message of `handleOptimizationChoice`. -/
def alreadyBlockedText : String :=
  "This model is already being prepared or exists. Check your Models page!"

/-- Successful-creation bot message of `handleOptimizationChoice`. -/
def creationSuccessText : String :=
  "Perfect choice! 🚀 I\x27m creating your AI model now. Our data science team will train it with your data and you\x27ll see results soon in your Models page."

/-- Fallback failure bot message of `handleOptimizationChoice`. -/
def inProgressFallbackText : String := "This model is already in progress."

/-- Synchronous part of `handleOptimizationChoice(type, label)`: early return
when no dataset is uploaded (no decision); otherwise check the guard — a
blocked type appends the choice message and the blocked bot message, an
allowed type is inserted into `processingTypes` before anything else and the
choice message is appended.  The returned decision is the guard outcome. -/
def chooseOptimizationStart (s : SessionState) (t : OptimizationType)
    (label : String) : Option GuardDecision × SessionState :=
  match s.page.csvData with
  | none => (none, s)
  | some _ =>
      let d := guardDecision s.app.createdModelTypes s.page.processingTypes t
      if d = .Allowed then
        (some d,
          { s with page := { s.page with
              processingTypes := s.page.processingTypes.insert t
              messages := s.page.messages
                ++ [⟨.user, "I choose: " ++ label⟩] } })
      else
        (some d,
          { s with page := { s.page with
              messages := s.page.messages
                ++ [⟨.user, "I choose: " ++ label⟩,
                    ⟨.bot, alreadyBlockedText⟩] } })

/-- The scheduled callback of the allowed path of
`handleOptimizationChoice`: call `onCreateModel` with the captured dataset,
remove the type from `processingTypes` whatever the result, and append the
bot message reflecting the outcome (`result.message || 'This model is
already in progress.'` on failure). -/
def chooseOptimizationFinish (s : SessionState) (t : OptimizationType)
    (csv : CSVData) (newId : String) : SessionState :=
  let r := handleCreateModel s.app t csv newId
  { app := r.2
    page := { s.page with
      processingTypes := s.page.processingTypes.erase t
      messages := s.page.messages
        ++ [⟨.bot, if r.1.success then creationSuccessText
                   else jsOr r.1.message inProgressFallbackText⟩] } }

/-- Successful `handleFile` upload: store the dataset and append the upload
notice and the analysis announcement. -/
def recordUpload (p : ChatbotState) (csv : CSVData) : ChatbotState :=
  { p with
    csvData := some csv
    messages := p.messages
      ++ [⟨.user, uploadedMarker ++ " " ++ csv.fileName⟩, ⟨.bot, analyzedText⟩] }

/-- Number of registry entries of a given optimization type. -/
def countModelsOfType (models : List ModelProject) (t : OptimizationType) : Nat :=
  (models.filter (fun m => m.type == t)).length

/-- C1: two `chooseOptimization` invocations for the same type in immediate
succession, before the scheduled creation of the first resolves, from any
state in which the type is neither created nor processing and has no
registry entry yet: the first obtains `Allowed`, the second
`AlreadyProcessing` (so exactly one of the two is allowed), and after the
first invocation's creation callback runs the registry holds exactly one
project of that type, now recorded as created. -/
theorem doubleChoice_exactly_once (s : SessionState) (t : OptimizationType)
    (label newId : String) (csv : CSVData)
    (hdata : s.page.csvData = some csv)
    (hc : t ∉ s.app.createdModelTypes)
    (hp : t ∉ s.page.processingTypes)
    (hm : countModelsOfType s.app.models t = 0) :
    (chooseOptimizationStart s t label).1 = some .Allowed
    ∧ (chooseOptimizationStart (chooseOptimizationStart s t label).2 t label).1
        = some .AlreadyProcessing
    ∧ countModelsOfType
        (chooseOptimizationFinish
          (chooseOptimizationStart
            (chooseOptimizationStart s t label).2 t label).2
          t csv newId).app.models t = 1
    ∧ t ∈ (chooseOptimizationFinish
          (chooseOptimizationStart
            (chooseOptimizationStart s t label).2 t label).2
          t csv newId).app.createdModelTypes := by
  have hAllowed :
      guardDecision s.app.createdModelTypes s.page.processingTypes t = .Allowed := by
    simp [guardDecision, hc, hp]
  have h1 : chooseOptimizationStart s t label =
      (some .Allowed,
        { s with page := { s.page with
            processingTypes := s.page.processingTypes.insert t
            messages := s.page.messages ++ [⟨.user, "I choose: " ++ label⟩] } }) := by
    simp [chooseOptimizationStart, hdata, hAllowed]
  have hProc :
      guardDecision s.app.createdModelTypes (s.page.processingTypes.insert t) t
        = .AlreadyProcessing := by
    simp [guardDecision, hc, List.mem_insert_self]
  have h2 : (chooseOptimizationStart (chooseOptimizationStart s t label).2 t label).1
      = some .AlreadyProcessing := by
    rw [h1]
    simp [chooseOptimizationStart, hdata, hProc]
  have happ2 : (chooseOptimizationStart
      (chooseOptimizationStart s t label).2 t label).2.app = s.app := by
    rw [h1]
    simp [chooseOptimizationStart, hdata, hProc]
  refine ⟨by rw [h1], h2, ?_, ?_⟩
  · rw [show (chooseOptimizationFinish
        (chooseOptimizationStart
          (chooseOptimizationStart s t label).2 t label).2 t csv newId).app
      = (handleCreateModel (chooseOptimizationStart
          (chooseOptimizationStart s t label).2 t label).2.app t csv newId).2
      from rfl, happ2]
    simp [handleCreateModel, hc, countModelsOfType] at hm ⊢
    exact hm
  · rw [show (chooseOptimizationFinish
        (chooseOptimizationStart
          (chooseOptimizationStart s t label).2 t label).2 t csv newId).app
      = (handleCreateModel (chooseOptimizationStart
          (chooseOptimizationStart s t label).2 t label).2.app t csv newId).2
      from rfl, happ2]
    simp [handleCreateModel, hc, List.mem_insert_self]

/-- Witness for `doubleChoice_exactly_once` at a concrete fresh session. -/
theorem doubleChoice_exactly_once_witness :
    (chooseOptimizationStart
        ⟨⟨[], [], none⟩, ⟨[⟨.bot, welcomeText⟩], some ⟨["a"], [], "d.csv"⟩, false, "", []⟩⟩
        .inventory "Inventory Optimization").1 = some .Allowed :=
  (doubleChoice_exactly_once
    ⟨⟨[], [], none⟩, ⟨[⟨.bot, welcomeText⟩], some ⟨["a"], [], "d.csv"⟩, false, "", []⟩⟩
    .inventory "Inventory Optimization" "17" ⟨["a"], [], "d.csv"⟩
    rfl (by decide) (by decide) (by decide)).1

/-! ## The session as an operation machine (for permanence of `created`) -/

/-- One user-visible operation of a session, with every effect outcome it
depends on passed as data: the synchronous part of an optimization choice,
its scheduled creation callback, a direct registry creation, a chat
round-trip, and a dataset upload.  (`handleUpdateModel` rewrites fields of
existing entries and never adds or removes one; it is treated separately.) -/
inductive SessionOp where
  | chooseStart (t : OptimizationType) (label : String)
  | chooseFinish (t : OptimizationType) (csv : CSVData) (newId : String)
  | createModel (t : OptimizationType) (csv : CSVData) (newId : String)
  | sendMessage (input : String) (outcome : TransportOutcome)
  | uploadFile (csv : CSVData)

/-- Apply one operation to the session state. -/
def sessionStep (s : SessionState) : SessionOp → SessionState
  | .chooseStart t label => (chooseOptimizationStart s t label).2
  | .chooseFinish t csv newId => chooseOptimizationFinish s t csv newId
  | .createModel t csv newId =>
      { s with app := (handleCreateModel s.app t csv newId).2 }
  | .sendMessage input outcome =>
      { s with page := handleSendMessage { s.page with inputMessage := input } outcome }
  | .uploadFile csv => { s with page := recordUpload s.page csv }

/-- Run a list of operations from a state. -/
def sessionRun (s : SessionState) : List SessionOp → SessionState
  | [] => s
  | op :: ops => sessionRun (sessionStep s op) ops

/-- `handleCreateModel` keeps every already-created type created and never
changes the number of registry entries of an already-created type. -/
theorem handleCreateModel_preserves_created (app : AppState)
    (t t' : OptimizationType) (csv : CSVData) (newId : String)
    (hc : t ∈ app.createdModelTypes) :
    t ∈ (handleCreateModel app t' csv newId).2.createdModelTypes
    ∧ countModelsOfType (handleCreateModel app t' csv newId).2.models t
      = countModelsOfType app.models t := by
  by_cases h : t' ∈ app.createdModelTypes
  · simp [handleCreateModel, h, hc]
  · have hne : t' ≠ t := by rintro rfl; exact h hc
    constructor
    · simp [handleCreateModel, h, List.mem_insert_iff, hc]
    · simp [handleCreateModel, h, countModelsOfType, hne]

/-- Every session operation preserves membership of `createdModelTypes` and
the registry count of an already-created type. -/
theorem sessionStep_preserves_created (s : SessionState) (op : SessionOp)
    (t : OptimizationType) (hc : t ∈ s.app.createdModelTypes) :
    t ∈ (sessionStep s op).app.createdModelTypes
    ∧ countModelsOfType (sessionStep s op).app.models t
      = countModelsOfType s.app.models t := by
  cases op with
  | chooseStart t' label =>
      have happ : (chooseOptimizationStart s t' label).2.app = s.app := by
        rcases hcsv : s.page.csvData with _ | csv
        · simp [chooseOptimizationStart, hcsv]
        · simp only [chooseOptimizationStart, hcsv]
          split <;> rfl
      rw [show (sessionStep s (.chooseStart t' label)).app
          = (chooseOptimizationStart s t' label).2.app from rfl, happ]
      exact ⟨hc, rfl⟩
  | chooseFinish t' csv newId =>
      exact handleCreateModel_preserves_created s.app t t' csv newId hc
  | createModel t' csv newId =>
      exact handleCreateModel_preserves_created s.app t t' csv newId hc
  | sendMessage input outcome => exact ⟨hc, rfl⟩
  | uploadFile csv => exact ⟨hc, rfl⟩

/-- C2: once a type is in `createdModelTypes` (as it is after a successful
creation, i.e. `resolve(type, true)`), it stays there across every further
session operation, the next guard check for it yields `AlreadyCreated`, a
direct `handleCreateModel` for it is refused, and the number of registry
projects of that type never changes — no second project of the type can ever
be created before a full session reset. -/
theorem created_type_permanent (s : SessionState) (ops : List SessionOp)
    (t : OptimizationType) (hc : t ∈ s.app.createdModelTypes) :
    t ∈ (sessionRun s ops).app.createdModelTypes
    ∧ countModelsOfType (sessionRun s ops).app.models t
      = countModelsOfType s.app.models t
    ∧ guardDecision (sessionRun s ops).app.createdModelTypes
        (sessionRun s ops).page.processingTypes t = .AlreadyCreated
    ∧ ∀ csv newId,
        (handleCreateModel (sessionRun s ops).app t csv newId).1.success = false := by
  induction ops generalizing s with
  | nil =>
      exact ⟨hc, rfl, by simp [sessionRun, guardDecision, hc],
        fun csv newId => by simp [sessionRun, handleCreateModel, hc]⟩
  | cons op ops ih =>
      obtain ⟨h1, h2⟩ := sessionStep_preserves_created s op t hc
      obtain ⟨ih1, ih2, ih3, ih4⟩ := ih (sessionStep s op) h1
      exact ⟨ih1, by rw [show sessionRun s (op :: ops)
        = sessionRun (sessionStep s op) ops from rfl, ih2, h2], ih3, ih4⟩

/-- Witness for `created_type_permanent`: a session that has created the
inventory model, running two further operations. -/
theorem created_type_permanent_witness :
    .inventory ∈ (sessionRun
      ⟨⟨[sampleModel], [.inventory], none⟩,
        ⟨[⟨.bot, welcomeText⟩], some ⟨["a"], [], "d.csv"⟩, false, "", []⟩⟩
      [.chooseStart .inventory "Inventory Optimization",
       .chooseFinish .inventory ⟨["a"], [], "d.csv"⟩ "99"]).app.createdModelTypes :=
  (created_type_permanent
    ⟨⟨[sampleModel], [.inventory], none⟩,
      ⟨[⟨.bot, welcomeText⟩], some ⟨["a"], [], "d.csv"⟩, false, "", []⟩⟩
    [.chooseStart .inventory "Inventory Optimization",
     .chooseFinish .inventory ⟨["a"], [], "d.csv"⟩ "99"]
    .inventory (by decide)).1
